import Mathlib

/-!
Verification of the segmented video-assembly pipeline of the
ffmpeg-video-api service (src/main.py) against its specification.

The Python source is shallowly embedded: pure computations (text escaping,
duration arithmetic, command construction) become Lean functions over
`String`/`ℚ`/`List`; the stateful pipeline (`create_inspix_video` and the
`/generate-inspix-video` endpoint) becomes explicit state passing over a
small filesystem model, with the outcome of each external ffmpeg
invocation abstracted as a boolean oracle.
-/

namespace Inspix

/-- The apostrophe (single-quote) character, used by the ffmpeg drawtext
filter syntax to delimit text content. -/
def apos : String := String.singleton (Char.ofNat 39)

/-- Fuel-driven worker for `pyReplace`: scans the character list left to
right, and whenever `pat` is a prefix of the remaining input, emits `rep`
and skips over the matched characters (Python `str.replace` semantics:
left-to-right, non-overlapping, replacement text not rescanned). -/
def pyReplaceAux (pat rep : List Char) : Nat → List Char → List Char
  | _, [] => []
  | 0, l => l
  | fuel + 1, c :: cs =>
    if pat.isPrefixOf (c :: cs) then
      rep ++ pyReplaceAux pat rep fuel (cs.drop (pat.length - 1))
    else
      c :: pyReplaceAux pat rep fuel cs

/-- Model of Python `str.replace(pat, rep)` (replace every occurrence). -/
def pyReplace (s pat rep : String) : String :=
  ⟨pyReplaceAux pat.data rep.data s.data.length s.data⟩

/-- src/main.py lines 300-309: escape special characters for the FFmpeg
drawtext filter, replacing backslash, quote, colon, percent and square
brackets by their backslash-escaped forms, in that order. -/
def escape_ffmpeg_text (text : String) : String :=
  let t1 := pyReplace text "\\" "\\\\"
  let t2 := pyReplace t1 apos ("\\" ++ apos)
  let t3 := pyReplace t2 ":" "\\:"
  let t4 := pyReplace t3 "%" "\\%"
  let t5 := pyReplace t4 "[" "\\["
  let t6 := pyReplace t5 "]" "\\]"
  t6

example : escape_ffmpeg_text "a:b" = "a\\:b" := by decide
example : escape_ffmpeg_text ("a" ++ apos ++ "b") = "a\\" ++ apos ++ "b" := by decide
example : escape_ffmpeg_text "x\\y" = "x\\\\y" := by decide
example : escape_ffmpeg_text "p%q[r]" = "p\\%q\\[r\\]" := by decide

/-! ## Segment durations (claim C1)

src/main.py `create_results_showcase` (lines 571-664): `total_duration =
7.0`, `duration_per_image = total_duration / len(result_images)`,
`transition_duration = 0.5`; each per-image sub-clip is encoded with
`-t duration_per_image`, and for two or more images the sub-clips are
joined by a chain of xfade filters with
`offset = (i + 1) * duration_per_image - transition_duration`.
The other five segments are encoded with fixed `-t` values 1, 2, 2, 2, 1
(`create_hook_grid`, `create_original_photo_segment`,
`create_prompt_tease_segment`, `create_branding_segment`,
`create_cta_segment`). -/

def showcase_total_duration : ℚ := 7

def showcase_transition_duration : ℚ := 1 / 2

def showcase_duration_per_image (n : ℕ) : ℚ :=
  showcase_total_duration / n

def showcase_xfade_offset (n i : ℕ) : ℚ :=
  (i + 1) * showcase_duration_per_image n - showcase_transition_duration

/-- Duration of the showcase segment as determined by the encoder
arguments: with one image the single sub-clip (encoded with
`-t duration_per_image`) is copied to the output; with `n ≥ 2` images the
xfade chain ends at the last offset plus the full length of the last
sub-clip, i.e. `offset (n-2) + duration_per_image`. -/
def showcase_segment_duration (n : ℕ) : ℚ :=
  if n = 1 then showcase_duration_per_image n
  else showcase_xfade_offset n (n - 2) + showcase_duration_per_image n

/-- The six segment durations of the inspix template, in template order,
as determined by the `-t` values and the showcase xfade offsets. -/
def inspix_segment_durations (n : ℕ) : List ℚ :=
  [1, 2, 2, showcase_segment_duration n, 2, 1]

example : (inspix_segment_durations 1).sum = 15 := by
  norm_num [inspix_segment_durations, showcase_segment_duration,
    showcase_duration_per_image, showcase_total_duration]

example : (inspix_segment_durations 2).sum = 29 / 2 := by
  norm_num [inspix_segment_durations, showcase_segment_duration,
    showcase_xfade_offset, showcase_duration_per_image,
    showcase_total_duration, showcase_transition_duration]

/-! ## Prompt auto-generation (claim C7)

src/main.py lines 319-327 (`auto_generate_prompt_preview`) and lines
1133-1135 (`create_inspix_video`: `if not prompt_text: prompt_text =
auto_generate_prompt_preview(len(result_images))`). -/

/-- The fixed four-element prompt list of `auto_generate_prompt_preview`. -/
def inspix_prompts : List String :=
  ["Transform your photos with AI magic",
   "Unlock endless creative possibilities",
   "Professional edits in seconds",
   "Your photo, infinite styles"]

/-- src/main.py lines 319-327: `prompts[min(result_count - 1,
len(prompts) - 1)] if result_count > 0 else prompts[0]`. -/
def auto_generate_prompt_preview (result_count : ℕ) : String :=
  if result_count > 0 then
    inspix_prompts.getD (min (result_count - 1) (inspix_prompts.length - 1)) ""
  else
    inspix_prompts.getD 0 ""

/-- src/main.py lines 1133-1135: a missing (`None`) or empty prompt text is
replaced by the auto-generated preview (`not prompt_text` is true in
Python for both `None` and `""`). -/
def resolve_prompt_text (prompt_text : Option String) (result_count : ℕ) : String :=
  match prompt_text with
  | some s => if s = "" then auto_generate_prompt_preview result_count else s
  | none => auto_generate_prompt_preview result_count

/-! ## Style-name resolution (claim C9)

src/main.py lines 1137-1139 (`create_inspix_video`) and line 587
(`create_results_showcase`). -/

/-- The default style labels `"Style 1" .. "Style n"`. -/
def default_style_names (n : ℕ) : List String :=
  (List.range n).map (fun i => "Style " ++ toString (i + 1))

/-- src/main.py lines 1137-1139: `if not style_names or len(style_names) <
len(result_images): style_names = [f"Style {i+1}" for i in
range(len(result_images))]`. -/
def resolve_style_names (style_names : Option (List String)) (n : ℕ) : List String :=
  match style_names with
  | none => default_style_names n
  | some s => if s.isEmpty || s.length < n then default_style_names n else s

/-- src/main.py line 587: `style_names[i] if i < len(style_names) else
f"Style {i+1}"` — the per-entry fallback inside `create_results_showcase`. -/
def showcase_style_name (style_names : List String) (i : ℕ) : String :=
  if i < style_names.length then style_names.getD i "" else "Style " ++ toString (i + 1)

/-! ## Slideshow duration accounting (claim C8)

src/main.py `create_video_from_images`, lines 970-999: the logged
"expected duration" formula versus the `-t` value given to the encoder
for each per-image clip (first and last clip: `duration_per_image`;
middle clips: `duration_per_image - transition_duration`), which are then
stream-copy concatenated with no overlap. -/

/-- src/main.py line 975: `total_duration = duration_per_image +
((len(image_paths) - 1) * (duration_per_image - transition_duration)) +
transition_duration` (multi-image branch). -/
def slideshow_logged_total (n : ℕ) (d t : ℚ) : ℚ :=
  d + ((n : ℚ) - 1) * (d - t) + t

/-- src/main.py lines 987-999: the `-t` duration of clip `i` out of `n`. -/
def slideshow_clip_duration (n i : ℕ) (d t : ℚ) : ℚ :=
  if i = 0 then d
  else if i = n - 1 then d
  else d - t

/-- The per-clip `-t` durations of the `n` clips, in order. -/
def slideshow_clip_durations (n : ℕ) (d t : ℚ) : List ℚ :=
  (List.range n).map (fun i => slideshow_clip_duration n i d t)

/-- Sum of `if j = K then dd else c` over `j < k`, when `k ≤ K`: the
special index is never reached, so the sum is `k • c`. -/
theorem sum_ite_eq_below (dd c : ℚ) :
    ∀ (k K : ℕ), k ≤ K →
      (((List.range k).map (fun j => if j = K then dd else c)).sum = k * c) := by
  intro k
  induction k with
  | zero => intro K _; simp
  | succ k ih =>
    intro K hk
    rw [List.range_succ, List.map_append, List.sum_append]
    have hkK : k ≠ K := by omega
    rw [ih K (by omega)]
    simp [hkK]
    ring

/-- Sum of `if j = K then dd else c` over `j < K + 1`: all terms are `c`
except the last, which is `dd`. -/
theorem sum_ite_eq_full (dd c : ℚ) (K : ℕ) :
    (((List.range (K + 1)).map (fun j => if j = K then dd else c)).sum
      = K * c + dd) := by
  rw [List.range_succ, List.map_append, List.sum_append]
  rw [sum_ite_eq_below dd c K K le_rfl]
  simp

/-- For every multi-image slideshow input the logged total-duration
formula agrees exactly with the sum of the per-clip `-t` durations. -/
theorem slideshow_totals_agree (n : ℕ) (d t : ℚ) (hn : 2 ≤ n) :
    slideshow_logged_total n d t = (slideshow_clip_durations n d t).sum := by
  obtain ⟨m, rfl⟩ : ∃ m, n = m + 2 := ⟨n - 2, by omega⟩
  have hmap : (List.range (m + 2)).map
      (fun i => slideshow_clip_duration (m + 2) i d t)
      = d :: (List.range (m + 1)).map (fun j => if j = m then d else d - t) := by
    rw [List.range_succ_eq_map, List.map_cons, List.map_map]
    have hhead : slideshow_clip_duration (m + 2) 0 d t = d := by
      simp [slideshow_clip_duration]
    rw [hhead]
    congr 1
    apply List.map_congr_left
    intro j _
    simp only [Function.comp, slideshow_clip_duration]
    have h0 : j + 1 ≠ 0 := Nat.succ_ne_zero j
    have h1 : (j + 1 = m + 2 - 1) ↔ (j = m) := by omega
    by_cases hj : j = m
    · simp [h0, hj]
    · simp [h0, hj, fun h => hj (h1.mp h)]
  unfold slideshow_clip_durations
  rw [hmap]
  rw [List.sum_cons, sum_ite_eq_full d (d - t) m]
  unfold slideshow_logged_total
  push_cast
  ring

/-! ## Filesystem model

The pipeline's effects on disk are modelled over a list of
`(path, size)` entries.  `shutil.rmtree` removes a directory together
with everything under it, i.e. every entry whose path has the directory
as a prefix; `Path.unlink` removes one file by name. -/

/-- A filesystem: the list of existing paths with their byte sizes. -/
def FS : Type := List (String × ℕ)

/-- `p` lies in (or is) directory `d`. -/
def underDir (d p : String) : Bool := d.data.isPrefixOf p.data

/-- `Path.mkdir`. -/
def mkdirFS (d : String) (fs : FS) : FS := (d, 0) :: fs

/-- Creating a file of the given size. -/
def createFile (p : String) (sz : ℕ) (fs : FS) : FS := (p, sz) :: fs

/-- `shutil.rmtree(d, ignore_errors=True)`: recursively remove `d`. -/
def rmtreeFS (d : String) (fs : FS) : FS :=
  fs.filter (fun e => !(underDir d e.1))

/-- `Path.unlink`: remove the file named `p`. -/
def unlinkFS (p : String) (fs : FS) : FS :=
  fs.filter (fun e => !(e.1 == p))

/-- `Path.exists` / `Path.stat().st_size`: look up a path's size. -/
def lookupFS (p : String) (fs : FS) : Option ℕ :=
  List.lookup p fs

theorem filter_all_self (l : List (String × ℕ)) (p : String × ℕ → Bool) :
    (l.filter p).all p = true := by
  induction l with
  | nil => rfl
  | cons a l ih =>
    by_cases h : p a = true
    · simp [List.filter_cons, h, ih]
    · simp only [List.filter_cons]
      simp only [Bool.not_eq_true] at h
      simp [h, ih]

theorem all_of_filter (l : List (String × ℕ)) (p q : String × ℕ → Bool)
    (h : l.all p = true) : (l.filter q).all p = true := by
  induction l with
  | nil => rfl
  | cons a l ih =>
    simp only [List.all_cons, Bool.and_eq_true] at h
    by_cases hq : q a = true
    · simp [List.filter_cons, hq, h.1, ih h.2]
    · simp only [List.filter_cons]
      simp only [Bool.not_eq_true] at hq
      simp [hq, ih h.2]

/-- After `rmtreeFS d`, no surviving path lies under `d`. -/
theorem rmtree_all (d : String) (fs : FS) :
    (rmtreeFS d fs).all (fun e => !(underDir d e.1)) = true :=
  filter_all_self fs _

/-- A filter on keys does not change the lookup of a key the filter
keeps. -/
theorem lookup_filter_of_pred (q : String → Bool) (k : String)
    (hq : q k = true) :
    ∀ fs : FS, List.lookup k (fs.filter (fun e => q e.1)) = List.lookup k fs := by
  intro fs
  induction fs with
  | nil => rfl
  | cons a l ih =>
    by_cases hqa : q a.1 = true
    · cases hak : (k == a.1) with
      | true => simp [List.filter_cons, hqa, List.lookup, hak]
      | false => simp [List.filter_cons, hqa, List.lookup, hak, ih]
    · have hak : (k == a.1) = false := by
        cases hak : (k == a.1) with
        | true =>
          have hk : k = a.1 := eq_of_beq hak
          rw [hk] at hq
          simp [hq] at hqa
        | false => rfl
      simp only [Bool.not_eq_true] at hqa
      simp [List.filter_cons, hqa, List.lookup, hak, ih]

/-! ## The six-segment pipeline (`create_inspix_video`, src/main.py
lines 1101-1296)

Each builder call is one external encoder invocation; its success or
failure is abstracted by a boolean oracle (`InspixOutcome`), as is the
final concatenation.  The control flow — the strict template order, the
abort on first failure (`raise` caught by the outer `except`), the
`finally: shutil.rmtree(temp_dir)` cleanup, the deletion of the segment
files after concatenation, and the output-size verification — is
mirrored exactly. -/

/-- The six roles of the fixed template, in template order. -/
inductive SegmentRole where
  | hookGrid
  | originalPhoto
  | promptTease
  | resultsShowcase
  | branding
  | callToAction
deriving DecidableEq

/-- The template order of the six segments (src/main.py lines 1141-1188). -/
def templateOrder : List SegmentRole :=
  [.hookGrid, .originalPhoto, .promptTease, .resultsShowcase, .branding, .callToAction]

/-- The on-disk file name of each segment (src/main.py lines 1143-1184). -/
def segmentFileName : SegmentRole → String
  | .hookGrid => "segment1_hook_grid.mp4"
  | .originalPhoto => "segment2_original.mp4"
  | .promptTease => "segment3_prompt.mp4"
  | .resultsShowcase => "segment4_results.mp4"
  | .branding => "segment5_branding.mp4"
  | .callToAction => "segment6_cta.mp4"

/-- Full path of a segment inside the per-request segments directory. -/
def segmentPath (tempDir : String) (r : SegmentRole) : String :=
  tempDir ++ "/" ++ segmentFileName r

/-- src/main.py lines 311-317: flags for extreme low-memory operation. -/
def get_memory_optimized_ffmpeg_flags : List String :=
  ["-max_muxing_queue_size", "512", "-bufsize", "256k", "-maxrate", "1M"]

/-- src/main.py lines 1205-1225: the final mux command when background
music was supplied and exists on disk — loop the audio indefinitely and
stop at the end of the (shorter) video stream. -/
def music_concat_cmd (concatFile musicPath outPath : String) : List String :=
  ["ffmpeg", "-y",
   "-f", "concat",
   "-safe", "0",
   "-i", concatFile,
   "-stream_loop", "-1",
   "-i", musicPath,
   "-c:v", "libx264",
   "-c:a", "aac",
   "-b:a", "128k",
   "-pix_fmt", "yuv420p",
   "-preset", "ultrafast",
   "-crf", "30",
   "-shortest",
   "-map", "0:v:0",
   "-map", "1:a:0",
   "-movflags", "+faststart",
   "-threads", "1"]
  ++ get_memory_optimized_ffmpeg_flags ++ [outPath]

/-- src/main.py lines 1227-1247: the final mux command when no music is
available — attach a generated silent stereo 44100 Hz AAC track. -/
def silent_concat_cmd (concatFile outPath : String) : List String :=
  ["ffmpeg", "-y",
   "-f", "concat",
   "-safe", "0",
   "-i", concatFile,
   "-f", "lavfi",
   "-i", "anullsrc=channel_layout=stereo:sample_rate=44100",
   "-c:v", "libx264",
   "-c:a", "aac",
   "-b:a", "64k",
   "-pix_fmt", "yuv420p",
   "-preset", "ultrafast",
   "-crf", "30",
   "-shortest",
   "-movflags", "+faststart",
   "-threads", "1"]
  ++ get_memory_optimized_ffmpeg_flags ++ [outPath]

/-- src/main.py line 1202: `if music_path and music_path.exists()` selects
between the two final-mux command forms. -/
def build_final_concat_cmd (concatFile : String) (music : Option String)
    (musicExists : Bool) (outPath : String) : List String :=
  match music, musicExists with
  | some m, true => music_concat_cmd concatFile m outPath
  | _, _ => silent_concat_cmd concatFile outPath

/-- src/main.py lines 1262-1265: `if not output_path.exists() or
output_path.stat().st_size < 10000: return False` — else the pipeline
reports success. -/
def verifyOutput (outPath : String) (fs : FS) : Bool :=
  match lookupFS outPath fs with
  | none => false
  | some sz => decide (10000 ≤ sz)

/-- Oracle for the outcomes of the external encoder invocations of one
`create_inspix_video` run. -/
structure InspixOutcome where
  hookOk : Bool
  originalOk : Bool
  promptOk : Bool
  showcaseOk : Bool
  brandingOk : Bool
  ctaOk : Bool
  concatOk : Bool
  outputCreated : Bool
  outputSize : ℕ

/-- Observable result of one `create_inspix_video` run: the reported
boolean, the final filesystem, the builders invoked in order, whether
the final concatenation was invoked, and the concat manifest written. -/
structure InspixRun where
  success : Bool
  fs : FS
  trace : List SegmentRole
  concatInvoked : Bool
  manifest : Option (List String)

/-- Shallow embedding of `create_inspix_video` (src/main.py lines
1101-1296).  Each failing builder raises, which the outer `except`
turns into `return False`; the `finally` block removes the segments
directory on every exit path, which is mirrored by `rmtreeFS tempDir`
in every branch. -/
def create_inspix_video (tempDir outPath : String) (music : Option String)
    (o : InspixOutcome) (fs0 : FS) : InspixRun :=
  let fs := mkdirFS tempDir fs0
  if !o.hookOk then
    { success := false, fs := rmtreeFS tempDir fs,
      trace := [.hookGrid], concatInvoked := false, manifest := none }
  else
    let fs := createFile (segmentPath tempDir .hookGrid) 1 fs
    if !o.originalOk then
      { success := false, fs := rmtreeFS tempDir fs,
        trace := [.hookGrid, .originalPhoto], concatInvoked := false, manifest := none }
    else
      let fs := createFile (segmentPath tempDir .originalPhoto) 1 fs
      if !o.promptOk then
        { success := false, fs := rmtreeFS tempDir fs,
          trace := [.hookGrid, .originalPhoto, .promptTease],
          concatInvoked := false, manifest := none }
      else
        let fs := createFile (segmentPath tempDir .promptTease) 1 fs
        if !o.showcaseOk then
          { success := false, fs := rmtreeFS tempDir fs,
            trace := [.hookGrid, .originalPhoto, .promptTease, .resultsShowcase],
            concatInvoked := false, manifest := none }
        else
          let fs := createFile (segmentPath tempDir .resultsShowcase) 1 fs
          if !o.brandingOk then
            { success := false, fs := rmtreeFS tempDir fs,
              trace := [.hookGrid, .originalPhoto, .promptTease, .resultsShowcase,
                        .branding],
              concatInvoked := false, manifest := none }
          else
            let fs := createFile (segmentPath tempDir .branding) 1 fs
            if !o.ctaOk then
              { success := false, fs := rmtreeFS tempDir fs,
                trace := templateOrder, concatInvoked := false, manifest := none }
            else
              let fs := createFile (segmentPath tempDir .callToAction) 1 fs
              let segments := templateOrder.map (segmentPath tempDir)
              let fs := createFile (tempDir ++ "/concat.txt") 1 fs
              let musicExists := match music with
                | some m => (lookupFS m fs).isSome
                | none => false
              let _cmd := build_final_concat_cmd (tempDir ++ "/concat.txt")
                music musicExists outPath
              if !o.concatOk then
                { success := false, fs := rmtreeFS tempDir fs,
                  trace := templateOrder, concatInvoked := true,
                  manifest := some segments }
              else
                let fs := if o.outputCreated then createFile outPath o.outputSize fs
                          else fs
                let fs := segments.foldl (fun acc p => unlinkFS p acc) fs
                { success := verifyOutput outPath fs, fs := rmtreeFS tempDir fs,
                  trace := templateOrder, concatInvoked := true,
                  manifest := some segments }

/-- The per-builder outcome bits, in template order. -/
def oksList (o : InspixOutcome) : List Bool :=
  [o.hookOk, o.originalOk, o.promptOk, o.showcaseOk, o.brandingOk, o.ctaOk]

/-- Number of leading `true`s: the index of the first failing builder,
or the list length if none fails. -/
def leadCount : List Bool → ℕ
  | [] => 0
  | b :: bs => if b then leadCount bs + 1 else 0

/-- All six builders succeed. -/
def allOk (o : InspixOutcome) : Bool := (oksList o).all id

/-! ## The `/generate-inspix-video` endpoint (src/main.py lines 1347-1578)

The endpoint creates a per-request upload directory, downloads the
assets into it, runs `create_inspix_video`, and removes the upload
directory on the success path (line 1528) as well as in both `except`
handlers (lines 1563-1571).  Download outcomes are abstracted by
booleans; the logo and music downloads degrade gracefully instead of
raising (lines 1487-1502). -/

/-- A file inside the per-request upload directory. -/
def uploadPath (reqDir s : String) : String := reqDir ++ s

/-- Oracle for one endpoint request. -/
structure EndpointOutcome where
  numResults : ℕ
  originalOk : Bool
  resultsOk : Bool
  logoRequested : Bool
  logoOk : Bool
  musicRequested : Bool
  musicOk : Bool
  video : InspixOutcome

/-- Observable result of one endpoint request: whether an HTTP error was
raised, and the final filesystem. -/
structure EndpointRun where
  raised : Bool
  fs : FS

/-- src/main.py lines 1504-1561: the tail of the endpoint after the
downloads — run the pipeline, raise 500 on failure (the `except` handler
removes the upload directory, lines 1563-1567), otherwise remove the
upload directory (line 1528), then raise 500 if the output file is
missing (line 1531, again cleaned up by the `except` handler). -/
def endpointFinish (reqDir outPath : String) (r : InspixRun) : EndpointRun :=
  if !r.success then
    { raised := true, fs := rmtreeFS reqDir r.fs }
  else
    match lookupFS outPath (rmtreeFS reqDir r.fs) with
    | none => { raised := true, fs := rmtreeFS reqDir (rmtreeFS reqDir r.fs) }
    | some _ => { raised := false, fs := rmtreeFS reqDir r.fs }

/-- Shallow embedding of the `/generate-inspix-video` handler
(src/main.py lines 1347-1578), starting at the creation of the
per-request upload directory (line 1430; everything before it is
request validation that touches no disk state). -/
def generate_inspix_video (reqDir tempDir outPath : String)
    (eo : EndpointOutcome) (fs0 : FS) : EndpointRun :=
  let fs := mkdirFS reqDir fs0
  if !eo.originalOk then
    { raised := true, fs := rmtreeFS reqDir fs }
  else
    let fs := createFile (uploadPath reqDir "/original.jpg") 1 fs
    if !eo.resultsOk then
      { raised := true, fs := rmtreeFS reqDir fs }
    else
      let fs := (List.range eo.numResults).foldl
        (fun acc i => createFile (uploadPath reqDir ("/result_" ++ toString i ++ ".jpg")) 1 acc) fs
      let logoPath := if eo.logoRequested && eo.logoOk
        then some (uploadPath reqDir "/logo.png") else none
      let fs := match logoPath with
        | some p => createFile p 1 fs
        | none => fs
      let musicPath := if eo.musicRequested && eo.musicOk
        then some (uploadPath reqDir "/music.mp3") else none
      let fs := match musicPath with
        | some p => createFile p 1 fs
        | none => fs
      endpointFinish reqDir outPath
        (create_inspix_video tempDir outPath musicPath eo.video fs)

/-! ## Cleanup and ordering lemmas -/

/-- In every outcome, the final filesystem of `create_inspix_video` holds
nothing under the segments directory: the `finally` block is the last
filesystem operation on every exit path. -/
theorem create_inspix_video_fs_clean (tempDir outPath : String)
    (music : Option String) (o : InspixOutcome) (fs0 : FS) :
    (create_inspix_video tempDir outPath music o fs0).fs.all
      (fun e => !(underDir tempDir e.1)) = true := by
  obtain ⟨h1, h2, h3, h4, h5, h6, hc, hoc, hsz⟩ := o
  cases h1 <;> cases h2 <;> cases h3 <;> cases h4 <;> cases h5 <;> cases h6 <;>
    cases hc <;> exact rmtree_all tempDir _

/-- Every exit path of the endpoint tail removes the upload directory. -/
theorem endpointFinish_fs_req (reqDir outPath : String) (r : InspixRun) :
    (endpointFinish reqDir outPath r).fs.all
      (fun e => !(underDir reqDir e.1)) = true := by
  unfold endpointFinish
  split
  · exact rmtree_all reqDir _
  · split
    · exact rmtree_all reqDir _
    · exact rmtree_all reqDir _

/-- The endpoint tail only filters the filesystem produced by the
pipeline, so any per-entry property of that filesystem is preserved. -/
theorem endpointFinish_fs_preserve (reqDir outPath : String) (r : InspixRun)
    (p : String × ℕ → Bool) (h : r.fs.all p = true) :
    (endpointFinish reqDir outPath r).fs.all p = true := by
  unfold endpointFinish
  split
  · exact all_of_filter _ _ _ h
  · split
    · exact all_of_filter _ _ _ (all_of_filter _ _ _ h)
    · exact all_of_filter _ _ _ h

/-- In every outcome, the final filesystem of the endpoint holds nothing
under the segments directory (provided the initial filesystem and the
upload directory are disjoint from it). -/
theorem generate_inspix_fs_temp_clean (reqDir tempDir outPath : String)
    (eo : EndpointOutcome) (fs0 : FS)
    (hfs0 : fs0.all (fun e => !(underDir tempDir e.1)) = true)
    (hrd : underDir tempDir reqDir = false)
    (hup : ∀ s, underDir tempDir (uploadPath reqDir s) = false) :
    (generate_inspix_video reqDir tempDir outPath eo fs0).fs.all
      (fun e => !(underDir tempDir e.1)) = true := by
  obtain ⟨n, ho, hr, lreq, lok, mreq, mok, v⟩ := eo
  cases ho with
  | false =>
    exact all_of_filter _ _ _ (by simp [mkdirFS, hrd, hfs0])
  | true =>
    cases hr with
    | false =>
      exact all_of_filter _ _ _
        (by simp [createFile, mkdirFS, hrd, hfs0, hup "/original.jpg"])
    | true =>
      exact endpointFinish_fs_preserve _ _ _ _
        (create_inspix_video_fs_clean tempDir outPath _ v _)

/-- Each segment file lies under the segments directory. -/
theorem segment_under (tempDir : String) (r : SegmentRole) :
    underDir tempDir (segmentPath tempDir r) = true := by
  have h : tempDir.data <+: (segmentPath tempDir r).data := by
    unfold segmentPath
    refine ⟨"/".data ++ (segmentFileName r).data, ?_⟩
    simp [String.data_append]
  unfold underDir
  exact List.isPrefixOf_iff_prefix.mpr h

/-- A filesystem clean of everything under `d` holds no entry equal to a
particular path under `d`. -/
theorem all_ne_of_clean (l : FS) (d pth : String)
    (hp : underDir d pth = true)
    (h : l.all (fun e => !(underDir d e.1)) = true) :
    l.all (fun e => !(e.1 == pth)) = true := by
  rw [List.all_eq_true] at h ⊢
  intro e he
  have h1 := h e he
  cases hek : (e.1 == pth) with
  | false => rfl
  | true =>
    have : e.1 = pth := eq_of_beq hek
    rw [this] at h1
    rw [hp] at h1
    exact absurd h1 (by simp)

/-! ## Claims C2 and C4 -/

/-- C2: for every execution of the pipeline (`create_inspix_video` and the
`/generate-inspix-video` endpoint), whether it reports success, reports
failure, or raises, the per-request scratch directories — the segments
temp directory and the per-request upload directory — no longer exist
afterwards (no surviving path lies under either), and no encoded segment
file remains on disk. -/
theorem c2_cleanup_invariant (tempDir reqDir outPath : String)
    (music : Option String) (o : InspixOutcome) (fs0 : FS)
    (eo : EndpointOutcome) (efs0 : FS)
    (hfs0 : efs0.all (fun e => !(underDir tempDir e.1)) = true)
    (hrd : underDir tempDir reqDir = false)
    (hup : ∀ s, underDir tempDir (uploadPath reqDir s) = false) :
    ((create_inspix_video tempDir outPath music o fs0).fs.all
        (fun e => !(underDir tempDir e.1)) = true)
    ∧ ((templateOrder.map (segmentPath tempDir)).all
        (fun pth => (create_inspix_video tempDir outPath music o fs0).fs.all
          (fun e => !(e.1 == pth))) = true)
    ∧ ((generate_inspix_video reqDir tempDir outPath eo efs0).fs.all
        (fun e => !(underDir reqDir e.1)) = true)
    ∧ ((generate_inspix_video reqDir tempDir outPath eo efs0).fs.all
        (fun e => !(underDir tempDir e.1)) = true) := by
  refine ⟨create_inspix_video_fs_clean tempDir outPath music o fs0, ?_, ?_, ?_⟩
  · rw [List.all_eq_true]
    intro pth hpth
    rw [List.mem_map] at hpth
    obtain ⟨r, _, rfl⟩ := hpth
    exact all_ne_of_clean _ tempDir _ (segment_under tempDir r)
      (create_inspix_video_fs_clean tempDir outPath music o fs0)
  · obtain ⟨n, ho, hr, lreq, lok, mreq, mok, v⟩ := eo
    cases ho with
    | false => exact rmtree_all reqDir _
    | true =>
      cases hr with
      | false => exact rmtree_all reqDir _
      | true => exact endpointFinish_fs_req reqDir outPath _
  · exact generate_inspix_fs_temp_clean reqDir tempDir outPath eo efs0 hfs0 hrd hup

/-- Witness for C2 at a concrete request: segments directory
`outputs/segments_a1b2`, upload directory `uploads/r1`, all downloads and
builders succeeding, output of 20000 bytes. -/
theorem c2_cleanup_invariant_witness :
    (([] : FS).all (fun e => !(underDir "outputs/segments_a1b2" e.1)) = true)
    ∧ (underDir "outputs/segments_a1b2" "uploads/r1" = false)
    ∧ ((generate_inspix_video "uploads/r1" "outputs/segments_a1b2"
          "outputs/inspix_r1.mp4"
          ⟨2, true, true, false, false, false, false,
            ⟨true, true, true, true, true, true, true, true, 20000⟩⟩ []).fs.all
        (fun e => !(underDir "uploads/r1" e.1)) = true)
    ∧ ((generate_inspix_video "uploads/r1" "outputs/segments_a1b2"
          "outputs/inspix_r1.mp4"
          ⟨2, true, true, false, false, false, false,
            ⟨true, true, true, true, true, true, true, true, 20000⟩⟩ []).fs.all
        (fun e => !(underDir "outputs/segments_a1b2" e.1)) = true) :=
  ⟨rfl, rfl,
    (c2_cleanup_invariant "outputs/segments_a1b2" "uploads/r1"
      "outputs/inspix_r1.mp4" none
      ⟨true, true, true, true, true, true, true, true, 20000⟩ []
      ⟨2, true, true, false, false, false, false,
        ⟨true, true, true, true, true, true, true, true, 20000⟩⟩ []
      rfl rfl (fun _ => rfl)).2.2.1,
    (c2_cleanup_invariant "outputs/segments_a1b2" "uploads/r1"
      "outputs/inspix_r1.mp4" none
      ⟨true, true, true, true, true, true, true, true, 20000⟩ []
      ⟨2, true, true, false, false, false, false,
        ⟨true, true, true, true, true, true, true, true, 20000⟩⟩ []
      rfl rfl (fun _ => rfl)).2.2.2⟩

/-- C4: the six segment builders are invoked strictly in template order
(hook grid, original photo, prompt tease, results showcase, branding,
call-to-action); if builder `k` fails the trace stops at `k` and the
final concatenation is not invoked; and when all builders succeed the
concat manifest lists the six segment files in exactly template order. -/
theorem c4_template_order (tempDir outPath : String) (music : Option String)
    (o : InspixOutcome) (fs0 : FS) :
    ((create_inspix_video tempDir outPath music o fs0).trace
        = templateOrder.take (leadCount (oksList o) + 1))
    ∧ ((create_inspix_video tempDir outPath music o fs0).concatInvoked = allOk o)
    ∧ ((create_inspix_video tempDir outPath music o fs0).manifest
        = (if allOk o then some (templateOrder.map (segmentPath tempDir))
           else none)) := by
  obtain ⟨h1, h2, h3, h4, h5, h6, hc, hoc, hsz⟩ := o
  cases h1 <;> cases h2 <;> cases h3 <;> cases h4 <;> cases h5 <;> cases h6 <;>
    cases hc <;> exact ⟨rfl, rfl, rfl⟩

/-! ## Claim C5: success implies an existing, large-enough output -/

/-- If the output verification passes on a filesystem, the output file
survives the final `rmtree` of the segments directory (which lies
elsewhere) with its verified size. -/
theorem verify_lookup (tempDir outPath : String) (fs : FS)
    (hsep : underDir tempDir outPath = false)
    (h : verifyOutput outPath fs = true) :
    ∃ sz, lookupFS outPath (rmtreeFS tempDir fs) = some sz ∧ 10000 ≤ sz := by
  unfold verifyOutput at h
  cases hl : lookupFS outPath fs with
  | none => rw [hl] at h; exact absurd h (by simp)
  | some sz =>
    rw [hl] at h
    simp only [decide_eq_true_eq] at h
    refine ⟨sz, ?_, h⟩
    unfold rmtreeFS lookupFS
    rw [lookup_filter_of_pred (fun s => !(underDir tempDir s)) outPath
      (by simp [hsep]) fs]
    exact hl

/-- If `create_inspix_video` reports success, the output file exists in
the final filesystem and its size is at least the 10000-byte threshold. -/
theorem inspix_success_size (tempDir outPath : String) (music : Option String)
    (o : InspixOutcome) (fs0 : FS)
    (hsep : underDir tempDir outPath = false) :
    (create_inspix_video tempDir outPath music o fs0).success = true →
    ∃ sz, lookupFS outPath (create_inspix_video tempDir outPath music o fs0).fs
            = some sz ∧ 10000 ≤ sz := by
  obtain ⟨h1, h2, h3, h4, h5, h6, hc, hoc, hsz⟩ := o
  cases h1 <;> cases h2 <;> cases h3 <;> cases h4 <;> cases h5 <;> cases h6 <;>
    cases hc <;> intro h <;>
    first
      | exact verify_lookup tempDir outPath _ hsep h
      | exact Bool.noConfusion h

/-- If the endpoint tail does not raise, the output file exists in its
final filesystem with at least the threshold size (given that the
pipeline's success already guarantees this about its own filesystem). -/
theorem endpointFinish_ok (reqDir outPath : String) (r : InspixRun)
    (hq : underDir reqDir outPath = false)
    (h1 : r.success = true →
      ∃ sz, lookupFS outPath r.fs = some sz ∧ 10000 ≤ sz) :
    (endpointFinish reqDir outPath r).raised = false →
    ∃ sz, lookupFS outPath (endpointFinish reqDir outPath r).fs
            = some sz ∧ 10000 ≤ sz := by
  intro h
  cases hs : r.success with
  | false =>
    unfold endpointFinish at h
    rw [hs] at h
    exact absurd h (by simp)
  | true =>
    obtain ⟨sz, hl, hsz⟩ := h1 hs
    have hl2 : lookupFS outPath (rmtreeFS reqDir r.fs) = some sz := by
      unfold rmtreeFS lookupFS
      rw [lookup_filter_of_pred (fun s => !(underDir reqDir s)) outPath
        (by simp [hq]) r.fs]
      exact hl
    unfold endpointFinish
    rw [hs]
    simp only [Bool.not_true, Bool.false_eq_true, if_false, hl2]
    exact ⟨sz, rfl, hsz⟩

/-- C5: for every request, the composition either reports success with an
output file that exists with at least the minimum byte threshold (10000
bytes), or reports a failure / raises; it never reports success for a
missing, empty, or below-threshold output file.  Stated both for
`create_inspix_video` and for the `/generate-inspix-video` endpoint. -/
theorem c5_output_verified (tempDir reqDir outPath : String)
    (music : Option String) (o : InspixOutcome) (fs0 : FS)
    (eo : EndpointOutcome) (efs0 : FS)
    (hsep : underDir tempDir outPath = false)
    (hsep2 : underDir reqDir outPath = false) :
    ((create_inspix_video tempDir outPath music o fs0).success = true →
      ∃ sz, lookupFS outPath (create_inspix_video tempDir outPath music o fs0).fs
              = some sz ∧ 10000 ≤ sz)
    ∧ ((generate_inspix_video reqDir tempDir outPath eo efs0).raised = false →
      ∃ sz, lookupFS outPath (generate_inspix_video reqDir tempDir outPath eo efs0).fs
              = some sz ∧ 10000 ≤ sz) := by
  constructor
  · exact inspix_success_size tempDir outPath music o fs0 hsep
  · obtain ⟨n, ho, hr, lreq, lok, mreq, mok, v⟩ := eo
    cases ho with
    | false => intro h; exact Bool.noConfusion h
    | true =>
      cases hr with
      | false => intro h; exact Bool.noConfusion h
      | true =>
        exact endpointFinish_ok reqDir outPath _ hsep2
          (inspix_success_size tempDir outPath _ v _ hsep)

/-- Witness for C5 at a concrete request (all stages succeed, output of
20000 bytes): the separation hypotheses hold and the endpoint does not
raise, with the output present at 20000 bytes. -/
theorem c5_output_verified_witness :
    (underDir "outputs/segments_a1b2" "outputs/inspix_r1.mp4" = false)
    ∧ (underDir "uploads/r1" "outputs/inspix_r1.mp4" = false)
    ∧ (∃ sz, lookupFS "outputs/inspix_r1.mp4"
        (generate_inspix_video "uploads/r1" "outputs/segments_a1b2"
          "outputs/inspix_r1.mp4"
          ⟨2, true, true, false, false, false, false,
            ⟨true, true, true, true, true, true, true, true, 20000⟩⟩ []).fs
        = some sz ∧ 10000 ≤ sz) :=
  ⟨rfl, rfl,
    (c5_output_verified "outputs/segments_a1b2" "uploads/r1"
      "outputs/inspix_r1.mp4" none
      ⟨true, true, true, true, true, true, true, true, 20000⟩ []
      ⟨2, true, true, false, false, false, false,
        ⟨true, true, true, true, true, true, true, true, 20000⟩⟩ []
      rfl rfl).2 rfl⟩

/-! ## Claim C6: audio attachment -/

/-- The command loops the supplied audio indefinitely (`-stream_loop -1`
immediately before the audio input) and truncates at the video's end
(`-shortest`). -/
def usesLoopedMusic (m : String) (cmd : List String) : Prop :=
  (["-stream_loop", "-1", "-i", m] <:+: cmd) ∧ (["-shortest"] <:+: cmd)

/-- The command attaches a generated silent stereo 44100 Hz track
(`anullsrc` via `-f lavfi`) and truncates with `-shortest`. -/
def usesSilentAudio (cmd : List String) : Prop :=
  (["-f", "lavfi", "-i", "anullsrc=channel_layout=stereo:sample_rate=44100"] <:+: cmd)
  ∧ (["-shortest"] <:+: cmd)

/-- C6: exactly one of the two audio-attachment command forms is used in
the final mux.  If a music file was supplied and exists on disk, the
command loops that audio indefinitely and truncates it to the video
length; otherwise the command attaches a generated silent stereo
44100 Hz track, also truncated with `-shortest`.  The two forms are
never equal, and the selected branch is exactly determined by the
music condition. -/
theorem c6_audio_attachment (concatFile outPath : String)
    (music : Option String) (musicExists : Bool) :
    (∀ m, music_concat_cmd concatFile m outPath ≠ silent_concat_cmd concatFile outPath)
    ∧ (match music, musicExists with
       | some m, true =>
           build_final_concat_cmd concatFile music musicExists outPath
             = music_concat_cmd concatFile m outPath
           ∧ usesLoopedMusic m (music_concat_cmd concatFile m outPath)
       | _, _ =>
           build_final_concat_cmd concatFile music musicExists outPath
             = silent_concat_cmd concatFile outPath
           ∧ usesSilentAudio (silent_concat_cmd concatFile outPath)) := by
  constructor
  · intro m h
    have := congrArg List.length h
    simp [music_concat_cmd, silent_concat_cmd,
      get_memory_optimized_ffmpeg_flags] at this
  · have hloop : ∀ m, usesLoopedMusic m (music_concat_cmd concatFile m outPath) := by
      intro m
      constructor
      · exact ⟨["ffmpeg", "-y", "-f", "concat", "-safe", "0", "-i", concatFile],
          ["-c:v", "libx264", "-c:a", "aac", "-b:a", "128k", "-pix_fmt", "yuv420p",
           "-preset", "ultrafast", "-crf", "30", "-shortest", "-map", "0:v:0",
           "-map", "1:a:0", "-movflags", "+faststart", "-threads", "1"]
          ++ get_memory_optimized_ffmpeg_flags ++ [outPath], rfl⟩
      · exact ⟨["ffmpeg", "-y", "-f", "concat", "-safe", "0", "-i", concatFile,
          "-stream_loop", "-1", "-i", m, "-c:v", "libx264", "-c:a", "aac",
          "-b:a", "128k", "-pix_fmt", "yuv420p", "-preset", "ultrafast",
          "-crf", "30"],
          ["-map", "0:v:0", "-map", "1:a:0", "-movflags", "+faststart",
           "-threads", "1"]
          ++ get_memory_optimized_ffmpeg_flags ++ [outPath], rfl⟩
    have hsil : usesSilentAudio (silent_concat_cmd concatFile outPath) := by
      constructor
      · exact ⟨["ffmpeg", "-y", "-f", "concat", "-safe", "0", "-i", concatFile],
          ["-c:v", "libx264", "-c:a", "aac", "-b:a", "64k", "-pix_fmt", "yuv420p",
           "-preset", "ultrafast", "-crf", "30", "-shortest", "-movflags",
           "+faststart", "-threads", "1"]
          ++ get_memory_optimized_ffmpeg_flags ++ [outPath], rfl⟩
      · exact ⟨["ffmpeg", "-y", "-f", "concat", "-safe", "0", "-i", concatFile,
          "-f", "lavfi", "-i", "anullsrc=channel_layout=stereo:sample_rate=44100",
          "-c:v", "libx264", "-c:a", "aac", "-b:a", "64k", "-pix_fmt", "yuv420p",
          "-preset", "ultrafast", "-crf", "30"],
          ["-movflags", "+faststart", "-threads", "1"]
          ++ get_memory_optimized_ffmpeg_flags ++ [outPath], rfl⟩
    match music, musicExists with
    | some m, true => exact ⟨rfl, hloop m⟩
    | some m, false => exact ⟨rfl, hsil⟩
    | none, true => exact ⟨rfl, hsil⟩
    | none, false => exact ⟨rfl, hsil⟩

/-- Witness for C6 at a concrete request with music supplied and present. -/
theorem c6_audio_attachment_witness :
    (build_final_concat_cmd "outputs/segments_a1b2/concat.txt"
        (some "uploads/r1/music.mp3") true "outputs/inspix_r1.mp4"
      = music_concat_cmd "outputs/segments_a1b2/concat.txt"
          "uploads/r1/music.mp3" "outputs/inspix_r1.mp4")
    ∧ usesLoopedMusic "uploads/r1/music.mp3"
        (music_concat_cmd "outputs/segments_a1b2/concat.txt"
          "uploads/r1/music.mp3" "outputs/inspix_r1.mp4")
    ∧ (music_concat_cmd "outputs/segments_a1b2/concat.txt"
        "uploads/r1/music.mp3" "outputs/inspix_r1.mp4"
      ≠ silent_concat_cmd "outputs/segments_a1b2/concat.txt"
          "outputs/inspix_r1.mp4") :=
  ⟨(c6_audio_attachment "outputs/segments_a1b2/concat.txt" "outputs/inspix_r1.mp4"
      (some "uploads/r1/music.mp3") true).2.1,
   (c6_audio_attachment "outputs/segments_a1b2/concat.txt" "outputs/inspix_r1.mp4"
      (some "uploads/r1/music.mp3") true).2.2,
   (c6_audio_attachment "outputs/segments_a1b2/concat.txt" "outputs/inspix_r1.mp4"
      (some "uploads/r1/music.mp3") true).1 "uploads/r1/music.mp3"⟩

/-! ## Claim C1: segment durations -/

/-- C1 (divergence witness): with one result image the six segment
durations sum to 15 seconds, but with two, three or four result images
the xfade offsets make the showcase segment 6.5 seconds long and the
segments sum to 14.5 seconds — not the declared 15. -/
theorem c1_durations_eval :
    ((inspix_segment_durations 1).sum = 15)
    ∧ ((inspix_segment_durations 2).sum = 29 / 2)
    ∧ ((inspix_segment_durations 3).sum = 29 / 2)
    ∧ ((inspix_segment_durations 4).sum = 29 / 2)
    ∧ ((29 : ℚ) / 2 ≠ 15) := by
  refine ⟨?_, ?_, ?_, ?_, by norm_num⟩ <;>
    norm_num [inspix_segment_durations, showcase_segment_duration,
      showcase_xfade_offset, showcase_duration_per_image,
      showcase_total_duration, showcase_transition_duration]

/-! ## Claim C7: prompt auto-generation -/

/-- C7: when no prompt preview text is provided, the caption equals the
entry of the fixed four-element prompt list at index
`min(resultImageCount - 1, 3)`; for one result image it is the first
entry, and for four or more it is the last entry. -/
theorem c7_prompt_autogen :
    (resolve_prompt_text none 1 = "Transform your photos with AI magic")
    ∧ (∀ n, 4 ≤ n → resolve_prompt_text none n = "Your photo, infinite styles")
    ∧ (∀ n, 1 ≤ n →
        resolve_prompt_text none n = inspix_prompts.getD (min (n - 1) 3) "") := by
  refine ⟨rfl, ?_, ?_⟩
  · intro n hn
    have hmin : min (n - 1) 3 = 3 := by omega
    unfold resolve_prompt_text auto_generate_prompt_preview
    have hpos : n > 0 := by omega
    simp only [hpos, if_true, inspix_prompts]
    norm_num [hmin]
  · intro n hn
    have hpos : n > 0 := by omega
    unfold resolve_prompt_text auto_generate_prompt_preview
    simp only [hpos, if_true]
    rfl

/-- Witness for C7 at seven result images. -/
theorem c7_prompt_autogen_witness :
    ((4 : ℕ) ≤ 7 ∧ resolve_prompt_text none 7 = "Your photo, infinite styles")
    ∧ ((1 : ℕ) ≤ 7 ∧ resolve_prompt_text none 7
        = inspix_prompts.getD (min (7 - 1) 3) "") :=
  ⟨⟨by norm_num, c7_prompt_autogen.2.1 7 (by norm_num)⟩,
   ⟨by norm_num, c7_prompt_autogen.2.2 7 (by norm_num)⟩⟩

/-! ## Claim C8: the slideshow duration accounting -/

/-- C8 (counterexample to the claimed mismatch): there is no multi-image
slideshow input on which the logged total-duration formula differs from
the sum of the per-clip `-t` durations — in exact arithmetic the two
always agree. -/
theorem c8_counterexample :
    ¬ ∃ (n : ℕ) (d t : ℚ), 2 ≤ n
      ∧ slideshow_logged_total n d t ≠ (slideshow_clip_durations n d t).sum := by
  rintro ⟨n, d, t, hn, hne⟩
  exact hne (slideshow_totals_agree n d t hn)

/-- C8 (amended): for every multi-image slideshow input, the
total-duration formula logged by `create_video_from_images` equals the
sum of the per-clip durations passed to the encoder. -/
theorem c8_durations_agree (n : ℕ) (d t : ℚ) (hn : 2 ≤ n) :
    slideshow_logged_total n d t = (slideshow_clip_durations n d t).sum :=
  slideshow_totals_agree n d t hn

/-- Witness for C8 at four images, three-second clips, one-second
transitions. -/
theorem c8_durations_agree_witness :
    (2 : ℕ) ≤ 4
    ∧ slideshow_logged_total 4 3 1 = (slideshow_clip_durations 4 3 1).sum :=
  ⟨by norm_num, c8_durations_agree 4 3 1 (by norm_num)⟩

/-! ## Claim C9: partially supplied style names are discarded -/

/-- C9: when `create_inspix_video` receives a non-empty `style_names` list
shorter than the result-image list, the whole list is replaced by the
defaults `"Style 1" .. "Style n"`; every showcase label is the default,
and the per-entry fallback inside `create_results_showcase` is never
exercised (every index is in range of the resolved list). -/
theorem c9_partial_styles_discarded (s : List String) (n : ℕ)
    (hne : s ≠ []) (hlt : s.length < n) :
    (resolve_style_names (some s) n = default_style_names n)
    ∧ (∀ i, i < n → i < (resolve_style_names (some s) n).length)
    ∧ (∀ i, i < n →
        showcase_style_name (resolve_style_names (some s) n) i
          = "Style " ++ toString (i + 1)) := by
  have hres : resolve_style_names (some s) n = default_style_names n := by
    unfold resolve_style_names
    simp [hlt]
  have hlen : (default_style_names n).length = n := by
    unfold default_style_names
    simp
  refine ⟨hres, ?_, ?_⟩
  · intro i hi
    rw [hres, hlen]
    exact hi
  · intro i hi
    rw [hres]
    unfold showcase_style_name
    rw [hlen]
    simp only [hi, if_true]
    unfold default_style_names
    rw [List.getD_eq_getElem?_getD]
    rw [List.getElem?_map]
    rw [List.getElem?_range hi]
    rfl

/-- Witness for C9: one supplied name, three result images — the
supplied name is discarded and label 3 is the default. -/
theorem c9_partial_styles_discarded_witness :
    ((["Cinematic"] : List String) ≠ [] ∧ (1 : ℕ) < 3)
    ∧ (resolve_style_names (some ["Cinematic"]) 3 = default_style_names 3)
    ∧ (showcase_style_name (resolve_style_names (some ["Cinematic"]) 3) 2
        = "Style 3") :=
  ⟨⟨by simp, by norm_num⟩,
   (c9_partial_styles_discarded ["Cinematic"] 3 (by simp) (by norm_num)).1,
   (c9_partial_styles_discarded ["Cinematic"] 3 (by simp) (by norm_num)).2.2
     2 (by norm_num)⟩

/-! ## Claim C10: the cleanup and listing endpoints

src/main.py lines 1741-1750 (`cleanup_video`), line 1505
(`generate_inspix_video`: `output_filename = f"inspix_{request_id}.mp4"`)
and lines 1752-1764 (`list_videos`, glob pattern `video_*.mp4`).  These
endpoints operate on the names in the output directory. -/

/-- The file targeted by `/cleanup/{video_id}`:
`OUTPUT_DIR / f"video_{video_id}.mp4"`. -/
def cleanup_target (video_id : String) : String :=
  "video_" ++ video_id ++ ".mp4"

/-- The output artifact name produced by `/generate-inspix-video`:
`f"inspix_{request_id}.mp4"`. -/
def inspix_output_name (request_id : String) : String :=
  "inspix_" ++ request_id ++ ".mp4"

/-- src/main.py lines 1741-1750: delete `video_{video_id}.mp4` if it
exists, else report 404 (`false` in the first component means 404). -/
def cleanup_video (video_id : String) (outputs : List String) :
    Bool × List String :=
  if cleanup_target video_id ∈ outputs then
    (true, outputs.filter (fun n => !(n == cleanup_target video_id)))
  else
    (false, outputs)

/-- A name matches the glob `video_*.mp4` iff it has `video_` as prefix
and the remainder ends in `.mp4`. -/
def matches_video_glob (name : String) : Bool :=
  "video_".data.isPrefixOf name.data
    && ".mp4".data.isSuffixOf (name.data.drop 6)

/-- src/main.py lines 1752-1764: list the output files matching
`video_*.mp4`. -/
def list_videos (outputs : List String) : List String :=
  outputs.filter matches_video_glob

/-- C10: `/cleanup/{video_id}` deletes exactly the file named
`video_{video_id}.mp4` and returns 404 exactly when it is absent; no
`inspix_{id}.mp4` artifact can ever be the deletion target, and
`/list-videos` never lists an inspix artifact. -/
theorem c10_cleanup_and_listing (vid rid : String) (outputs : List String) :
    ((cleanup_video vid outputs).2
        = outputs.filter (fun n => !(n == cleanup_target vid)))
    ∧ ((cleanup_video vid outputs).1 = false
        ↔ cleanup_target vid ∉ outputs)
    ∧ (cleanup_target vid ≠ inspix_output_name rid)
    ∧ (matches_video_glob (inspix_output_name rid) = false)
    ∧ (inspix_output_name rid ∉ list_videos outputs) := by
  have hneq : cleanup_target vid ≠ inspix_output_name rid := by
    intro h
    have hd := congrArg String.data h
    simp only [cleanup_target, inspix_output_name, String.data_append] at hd
    exact absurd hd (by simp)
  have hglob : matches_video_glob (inspix_output_name rid) = false := rfl
  refine ⟨?_, ?_, hneq, hglob, ?_⟩
  · unfold cleanup_video
    by_cases hm : cleanup_target vid ∈ outputs
    · simp [hm]
    · simp only [hm, if_false]
      have hself : outputs.filter (fun n => !(n == cleanup_target vid)) = outputs := by
        apply List.filter_eq_self.mpr
        intro a ha
        cases hak : (a == cleanup_target vid) with
        | false => rfl
        | true =>
          have : a = cleanup_target vid := eq_of_beq hak
          rw [this] at ha
          exact absurd ha hm
      rw [hself]
  · unfold cleanup_video
    by_cases hm : cleanup_target vid ∈ outputs
    · simp [hm]
    · simp [hm]
  · intro hmem
    unfold list_videos at hmem
    rw [List.mem_filter] at hmem
    rw [hglob] at hmem
    exact absurd hmem.2 (by simp)

/-- Witness for C10: a concrete output directory holding one slideshow
video and one inspix artifact — the inspix file is neither the cleanup
target nor listed. -/
theorem c10_cleanup_and_listing_witness :
    ((cleanup_video "abc" ["video_abc.mp4", "inspix_def.mp4"]).2
        = ["inspix_def.mp4"])
    ∧ (cleanup_target "abc" ≠ inspix_output_name "def")
    ∧ (inspix_output_name "def"
        ∉ list_videos ["video_abc.mp4", "inspix_def.mp4"]) :=
  ⟨by
    have h := (c10_cleanup_and_listing "abc" "def"
      ["video_abc.mp4", "inspix_def.mp4"]).1
    rw [h]
    rfl,
   (c10_cleanup_and_listing "abc" "def" ["video_abc.mp4", "inspix_def.mp4"]).2.2.1,
   (c10_cleanup_and_listing "abc" "def" ["video_abc.mp4", "inspix_def.mp4"]).2.2.2.2⟩

/-! ## Claim C3: drawtext escaping

The drawtext filter strings built by the segment builders and by the
slideshow builder, faithful to the f-strings of src/main.py.  In the six
inspix segment builders every caller-supplied caption passes through
`escape_ffmpeg_text` before being embedded; in `create_video_from_images`
the captions `text_content` / `second_text_content` are embedded raw. -/

/-- src/main.py lines 509-521: the `-vf` filter of
`create_prompt_tease_segment` (`text1 = escape_ffmpeg_text("+ inspix
Prompt =")`, `text2 = escape_ffmpeg_text(prompt_text)`). -/
def prompt_tease_filter (prompt_text : String) : String :=
  let text1 := escape_ffmpeg_text "+ inspix Prompt ="
  let text2 := escape_ffmpeg_text prompt_text
  "scale=720:1280:force_original_aspect_ratio=decrease," ++
  "pad=720:1280:(ow-iw)/2:(oh-ih)/2:black," ++
  "eq=brightness=-0.3," ++
  ("drawtext=text=" ++ apos ++ text1 ++ apos ++ ":") ++
  "fontfile=/Windows/Fonts/arialbd.ttf:fontsize=42:fontcolor=white:" ++
  "borderw=2:bordercolor=black:" ++
  "x=(w-text_w)/2:y=(h)/2-70," ++
  ("drawtext=text=" ++ apos ++ text2 ++ apos ++ ":") ++
  "fontfile=/Windows/Fonts/arialbd.ttf:fontsize=32:fontcolor=white:" ++
  "borderw=2:bordercolor=black:" ++
  "x=(w-text_w)/2:y=(h)/2+35"

/-- src/main.py line 588: the `"{i+1}/{len(result_images)}"` counter. -/
def showcase_counter_text (i n : ℕ) : String :=
  toString (i + 1) ++ "/" ++ toString n

/-- src/main.py lines 590-606: the `-vf` filter of one showcase sub-clip
(`text_style = escape_ffmpeg_text(f"Style\\: {style_name}")`,
`text_counter = escape_ffmpeg_text(counter_text)`). -/
def results_showcase_filter (style_name counter_text : String) : String :=
  let text_style := escape_ffmpeg_text ("Style\\: " ++ style_name)
  let text_counter := escape_ffmpeg_text counter_text
  "scale=720:1280:force_original_aspect_ratio=increase," ++
  "crop=720:1280," ++
  "fade=t=in:st=0:d=0.3," ++
  ("drawtext=text=" ++ apos ++ text_style ++ apos ++ ":") ++
  "fontfile=/Windows/Fonts/arialbd.ttf:fontsize=42:fontcolor=white:" ++
  "borderw=2:bordercolor=black:" ++
  "x=(w-text_w)/2:y=70," ++
  ("drawtext=text=" ++ apos ++ text_counter ++ apos ++ ":") ++
  "fontfile=/Windows/Fonts/arialbd.ttf:fontsize=32:fontcolor=white:" ++
  "borderw=2:bordercolor=black:" ++
  "x=(w-text_w)/2:y=h-100"

/-- src/main.py lines 811-816: the drawtext part of the CTA segment
(`text = escape_ffmpeg_text(cta_text)`). -/
def cta_text_filter (cta_text : String) : String :=
  let text := escape_ffmpeg_text cta_text
  ("drawtext=text=" ++ apos ++ text ++ apos ++ ":") ++
  "fontfile=/Windows/Fonts/arialbd.ttf:fontsize=54:fontcolor=white:" ++
  "borderw=3:bordercolor=black:" ++
  "x=(w-text_w)/2:y=(h-text_h)/2"

/-- src/main.py lines 905-932: the `-vf` filter of the single-image
branch of `create_video_from_images`.  The caller-supplied
`text_content` and `second_text_content` are embedded directly — no
`escape_ffmpeg_text` call appears anywhere in this builder. -/
def create_video_from_images_single_filter
    (text_content second_text_content : Option String)
    (duration_per_image transition_duration : ℚ) : String :=
  let base :=
    "scale=1080:1920:force_original_aspect_ratio=decrease," ++
    "pad=1080:1920:(ow-iw)/2:(oh-ih)/2:black," ++
    "fade=t=in:st=0:d=" ++ toString transition_duration
  let vf1 := match text_content with
    | some t =>
        base ++ "," ++
        ("drawtext=text=" ++ apos ++ t ++ apos ++ ":") ++
        "fontsize=72:fontcolor=white:" ++
        "x=(w-text_w)/2:y=h-text_h-100:" ++
        "box=1:boxcolor=black@0.8:boxborderw=25:" ++
        "shadowcolor=black:shadowx=2:shadowy=2:" ++
        "enable=" ++ apos ++ "between(t,0,3)" ++ apos
    | none => base
  match second_text_content with
  | some t2 =>
      let video_duration := duration_per_image + transition_duration
      vf1 ++ "," ++
      ("drawtext=text=" ++ apos ++ t2 ++ apos ++ ":") ++
      "fontsize=72:fontcolor=white:" ++
      "x=(w-text_w)/2:y=h-text_h-100:" ++
      "box=1:boxcolor=black@0.8:boxborderw=25:" ++
      "shadowcolor=black:shadowx=2:shadowy=2:" ++
      "enable=" ++ apos ++ "between(t,3," ++ toString video_duration ++ ")" ++ apos
  | none => vf1

set_option maxRecDepth 8192 in
/-- C3 (counterexample): for the caption `Style: 100%`, which contains a
colon and a percent sign, the slideshow builder's filter embeds the raw
caption as drawtext content and does not contain the escaped form
produced by `escape_ffmpeg_text` — so not every argument list embeds
caller text only after escaping. -/
theorem c3_counterexample :
    (escape_ffmpeg_text "Style: 100%" ≠ "Style: 100%")
    ∧ (("text=" ++ apos ++ "Style: 100%" ++ apos).data
        <:+: (create_video_from_images_single_filter
          (some "Style: 100%") none 3 1).data)
    ∧ ¬ ((escape_ffmpeg_text "Style: 100%").data
        <:+: (create_video_from_images_single_filter
          (some "Style: 100%") none 3 1).data) := by
  refine ⟨by decide, by decide, by decide⟩

set_option maxRecDepth 32768 in
/-- C3 (amended): in the inspix segment builders every caller-supplied
caption — the prompt preview text, each showcase style label, the
showcase counter, and the CTA text — is embedded as drawtext content
only after `escape_ffmpeg_text` has been applied; in the slideshow
builder `create_video_from_images`, by contrast, the caption is embedded
raw. -/
theorem c3_escaping_amended (pt sn cnt ct slide : String) (d tr : ℚ) :
    (("drawtext=text=" ++ apos ++ escape_ffmpeg_text pt ++ apos ++ ":").data
      <:+: (prompt_tease_filter pt).data)
    ∧ (("drawtext=text=" ++ apos ++ escape_ffmpeg_text ("Style\\: " ++ sn)
          ++ apos ++ ":").data
      <:+: (results_showcase_filter sn cnt).data)
    ∧ (("drawtext=text=" ++ apos ++ escape_ffmpeg_text cnt ++ apos ++ ":").data
      <:+: (results_showcase_filter sn cnt).data)
    ∧ (("drawtext=text=" ++ apos ++ escape_ffmpeg_text ct ++ apos ++ ":").data
      <:+: (cta_text_filter ct).data)
    ∧ (("drawtext=text=" ++ apos ++ slide ++ apos ++ ":").data
      <:+: (create_video_from_images_single_filter (some slide) none d tr).data) := by
  refine ⟨?_, ?_, ?_, ?_, ?_⟩
  · exact ⟨("scale=720:1280:force_original_aspect_ratio=decrease," ++
      "pad=720:1280:(ow-iw)/2:(oh-ih)/2:black," ++
      "eq=brightness=-0.3," ++
      ("drawtext=text=" ++ apos ++ escape_ffmpeg_text "+ inspix Prompt ="
        ++ apos ++ ":") ++
      "fontfile=/Windows/Fonts/arialbd.ttf:fontsize=42:fontcolor=white:" ++
      "borderw=2:bordercolor=black:" ++
      "x=(w-text_w)/2:y=(h)/2-70,").data,
      ("fontfile=/Windows/Fonts/arialbd.ttf:fontsize=32:fontcolor=white:" ++
      "borderw=2:bordercolor=black:" ++
      "x=(w-text_w)/2:y=(h)/2+35").data,
      by simp [prompt_tease_filter, String.data_append, List.append_assoc]⟩
  · exact ⟨("scale=720:1280:force_original_aspect_ratio=increase," ++
      "crop=720:1280," ++
      "fade=t=in:st=0:d=0.3,").data,
      ("fontfile=/Windows/Fonts/arialbd.ttf:fontsize=42:fontcolor=white:" ++
      "borderw=2:bordercolor=black:" ++
      "x=(w-text_w)/2:y=70," ++
      ("drawtext=text=" ++ apos ++ escape_ffmpeg_text cnt ++ apos ++ ":") ++
      "fontfile=/Windows/Fonts/arialbd.ttf:fontsize=32:fontcolor=white:" ++
      "borderw=2:bordercolor=black:" ++
      "x=(w-text_w)/2:y=h-100").data,
      by simp [results_showcase_filter, String.data_append, List.append_assoc]⟩
  · exact ⟨("scale=720:1280:force_original_aspect_ratio=increase," ++
      "crop=720:1280," ++
      "fade=t=in:st=0:d=0.3," ++
      ("drawtext=text=" ++ apos ++ escape_ffmpeg_text ("Style\\: " ++ sn)
        ++ apos ++ ":") ++
      "fontfile=/Windows/Fonts/arialbd.ttf:fontsize=42:fontcolor=white:" ++
      "borderw=2:bordercolor=black:" ++
      "x=(w-text_w)/2:y=70,").data,
      ("fontfile=/Windows/Fonts/arialbd.ttf:fontsize=32:fontcolor=white:" ++
      "borderw=2:bordercolor=black:" ++
      "x=(w-text_w)/2:y=h-100").data,
      by simp [results_showcase_filter, String.data_append, List.append_assoc]⟩
  · exact ⟨([] : List Char),
      ("fontfile=/Windows/Fonts/arialbd.ttf:fontsize=54:fontcolor=white:" ++
      "borderw=3:bordercolor=black:" ++
      "x=(w-text_w)/2:y=(h-text_h)/2").data,
      by simp [cta_text_filter, String.data_append, List.append_assoc]⟩
  · exact ⟨("scale=1080:1920:force_original_aspect_ratio=decrease," ++
      "pad=1080:1920:(ow-iw)/2:(oh-ih)/2:black," ++
      "fade=t=in:st=0:d=" ++ toString tr ++ ",").data,
      ("fontsize=72:fontcolor=white:" ++
      "x=(w-text_w)/2:y=h-text_h-100:" ++
      "box=1:boxcolor=black@0.8:boxborderw=25:" ++
      "shadowcolor=black:shadowx=2:shadowy=2:" ++
      "enable=" ++ apos ++ "between(t,0,3)" ++ apos).data,
      by simp [create_video_from_images_single_filter, String.data_append,
        List.append_assoc]⟩

end Inspix
